import Mathlib

/-!
Verification development for `service.kronos.eye` (`service.py` v1.1.1),
a one-shot Kodi service that fires at most one full-moon toast per day and
one Saturn-ingress toast per year, persisting state in a JSON file.

The Python source is shallowly embedded below:
* calendar dates follow `datetime.date` (proleptic Gregorian ordinals);
* the float arithmetic of `is_full_moon` is modelled exactly over `ℚ`
  (Python's `%` on a float divisor is the floored real modulo);
* the JSON state dict is an insertion-ordered association list over a
  small JSON value type;
* external effects (notifications, sleeps, file reads/writes) are
  recorded as events in a trace;
* fallible I/O (`load_status`, `save_status`) is parametrised by the
  failure condition of the underlying file operations.
-/

namespace KronosEye

/-! ### Calendar dates, following Python `datetime.date` -/

/-- A calendar date (Python `datetime.date`); fields as in Python,
`year ≥ 1`, months 1-12, days 1-31 (validity is not needed by the code
under verification, which only subtracts dates). -/
structure Date where
  year : Nat
  month : Nat
  day : Nat
deriving DecidableEq, Repr

/-- Gregorian leap-year test, as in Python `calendar.isleap`. -/
def isLeap (y : Nat) : Bool :=
  y % 4 == 0 && (y % 100 != 0 || y % 400 == 0)

/-- Days in the months strictly before month `m` of a non-leap year
(`datetime`'s `_DAYS_BEFORE_MONTH`). -/
def daysBeforeMonth (m : Nat) : Nat :=
  match m with
  | 1 => 0
  | 2 => 31
  | 3 => 59
  | 4 => 90
  | 5 => 120
  | 6 => 151
  | 7 => 181
  | 8 => 212
  | 9 => 243
  | 10 => 273
  | 11 => 304
  | _ => 334

/-- Days in all years strictly before year `y` (`datetime._days_before_year`). -/
def daysBeforeYear (y : Nat) : Nat :=
  (y - 1) * 365 + (y - 1) / 4 - (y - 1) / 100 + (y - 1) / 400

/-- Python `date.toordinal()`: day number with 0001-01-01 = 1. -/
def toordinal (d : Date) : Nat :=
  daysBeforeYear d.year + daysBeforeMonth d.month +
    (if isLeap d.year && decide (d.month > 2) then 1 else 0) + d.day

/-- The reference full moon hard-coded in `is_full_moon`: 2000-01-06. -/
def known_full_moon : Date := ⟨2000, 1, 6⟩

/-- Python `(date_obj - known_full_moon).days`: integer day difference, which may
be negative for dates before the epoch. -/
def days_passed (d : Date) : Int :=
  (toordinal d : Int) - (toordinal known_full_moon : Int)

/-! ### Moon-phase evaluator (`is_full_moon`, service.py lines 88-105) -/

/-- The synodic month constant of `is_full_moon`. -/
def lunar_cycle : ℚ := 29.53058867

/-- The source's `moon_age = days_passed % lunar_cycle`, computed exactly in units of
10⁻⁸ day (all constants of the source have at most 8 decimals, so they are
exact in this scale): Python's `%` with a positive divisor is the floored
real modulo, which on these inputs is `(days_passed * 10^8) % 2953058867`
with the Euclidean `%` of `ℤ`. -/
def moon_age_e8 (d : Date) : Int :=
  (days_passed d * 100000000) % 2953058867

/-- The value `moon_age` as the rational number of days it denotes. -/
def moon_age (d : Date) : ℚ :=
  (moon_age_e8 d : ℚ) / 100000000

/-- Python `is_full_moon(date_obj)`: full ⟺ `abs(moon_age - 14.77) < 0.5`,
stated in units of 10⁻⁸ day. (The `try/except` of the source cannot fire
on a well-formed date: date subtraction, `%` and `abs` do not raise.) -/
def is_full_moon (d : Date) : Bool :=
  |moon_age_e8 d - 1477000000| < 50000000

example : toordinal ⟨2000, 1, 6⟩ = 730125 := by decide
example : days_passed ⟨2025, 1, 14⟩ = 9140 := by decide
example : is_full_moon ⟨2025, 1, 14⟩ = true := by decide
example : is_full_moon ⟨2025, 1, 1⟩ = false := by decide
example : is_full_moon ⟨2000, 1, 20⟩ = false := by decide
example : is_full_moon ⟨2000, 1, 21⟩ = true := by decide
example : is_full_moon ⟨1999, 12, 20⟩ = false := by decide

/-! ### ISO date strings (Python `str(today)`) -/

/-- Zero-pad to two digits, as in `date.isoformat`. -/
def pad2 (n : Nat) : String :=
  if n < 10 then "0" ++ toString n else toString n

/-- Zero-pad to four digits, as in `date.isoformat`. -/
def pad4 (n : Nat) : String :=
  if n < 10 then "000" ++ toString n
  else if n < 100 then "00" ++ toString n
  else if n < 1000 then "0" ++ toString n
  else toString n

/-- Python `str(today)`: the ISO form `YYYY-MM-DD`. -/
def dateStr (d : Date) : String :=
  pad4 d.year ++ "-" ++ pad2 d.month ++ "-" ++ pad2 d.day

example : dateStr ⟨2025, 1, 14⟩ = "2025-01-14" := by decide

/-! ### The JSON state mapping (`saturn_moon_status.txt`) -/

/-- JSON values as they occur in the state file: the program writes
strings and ints; unknown keys may hold any of these. -/
inductive JVal where
  | jstr (s : String)
  | jint (n : Int)
  | jbool (b : Bool)
  | jnull
deriving DecidableEq, Repr

/-- The in-memory state dict: an insertion-ordered association list with
unique keys, Python-dict style. -/
abbrev StateMap := List (String × JVal)

/-- Python `status.get(k)`: `some v` when present, `none` (Python `None`)
when absent. -/
def dget : StateMap → String → Option JVal
  | [], _ => none
  | (k₀, v₀) :: rest, k => if k₀ = k then some v₀ else dget rest k

/-- Python `status[k] = v`: replace the value in place when the key
exists, append a new entry otherwise. -/
def dset : StateMap → String → JVal → StateMap
  | [], k, v => [(k, v)]
  | (k₀, v₀) :: rest, k, v =>
      if k₀ = k then (k, v) :: rest else (k₀, v₀) :: dset rest k v

/-! ### Saturn ingress table (service.py lines 24-40) -/

/-- The table `SATURN_ZODIAC_CYCLE`: the hard-coded year → sign table; `some` models
`year in SATURN_ZODIAC_CYCLE` plus the lookup. -/
def SATURN_ZODIAC_CYCLE : Nat → Option String
  | 2023 => some "Pisces"
  | 2025 => some "Aries"
  | 2028 => some "Taurus"
  | 2030 => some "Gemini"
  | 2033 => some "Cancer"
  | 2035 => some "Leo"
  | 2038 => some "Virgo"
  | 2040 => some "Libra"
  | 2043 => some "Scorpio"
  | 2045 => some "Sagittarius"
  | 2048 => some "Capricorn"
  | 2050 => some "Aquarius"
  | 2053 => some "Pisces"
  | 2055 => some "Aries"
  | 2058 => some "Taurus"
  | _ => none

/-! ### Observable effects of a run -/

/-- The externally observable effects of `main`, in program order. -/
inductive Event where
  | loadFile
  | notify (title message icon : String)
  | sleepMs (ms : Nat)
  | saveFile (st : StateMap)
deriving DecidableEq, Repr

/-- Is this event a toast notification? -/
def Event.isNotify : Event → Bool
  | .notify _ _ _ => true
  | _ => false

/-- Is this event a sleep (the stagger delay)? -/
def Event.isSleep : Event → Bool
  | .sleepMs _ => true
  | _ => false

/-- Is this event a state-file save? -/
def Event.isSave : Event → Bool
  | .saveFile _ => true
  | _ => false

/-- The notifications contained in a trace. -/
def notificationsOf (es : List Event) : List Event :=
  es.filter Event.isNotify

/-- The sleeps contained in a trace. -/
def sleepsOf (es : List Event) : List Event :=
  es.filter Event.isSleep

/-- The saves contained in a trace. -/
def savesOf (es : List Event) : List Event :=
  es.filter Event.isSave

/-! ### Orchestrator (`main`, service.py lines 120-173) -/

/-- Result of one guarded notification block. -/
structure StepOut where
  state : StateMap
  events : List Event
  fired : Bool
deriving DecidableEq, Repr

/-- The full-moon block (lines 134-148): fire at most once per calendar
day, guarded by the persisted `last_fullmoon` ISO date string. The
`try/except` wrapper is not modelled as failing: every operation in the
block on a dict-shaped state is total. -/
def moonStep (status : StateMap) (today : Date) : StepOut :=
  if dget status "last_fullmoon" = some (.jstr (dateStr today)) then
    ⟨status, [], false⟩
  else if is_full_moon today then
    ⟨dset status "last_fullmoon" (.jstr (dateStr today)),
      [.notify "[B]Kronos Eye[/B]" "Step into the light." "fullmoon.png"],
      true⟩
  else
    ⟨status, [], false⟩

/-- The Saturn-ingress block (lines 150-166): fire at most once per
configured year, guarded by the persisted `last_saturn_year` integer;
stagger with `xbmc.sleep(3000)` when the moon toast fired in this run. -/
def saturnStep (status : StateMap) (currentYear : Nat)
    (fullmoonFired : Bool) : StepOut :=
  match SATURN_ZODIAC_CYCLE currentYear with
  | none => ⟨status, [], false⟩
  | some zodiac =>
      if dget status "last_saturn_year" = some (.jint (currentYear : Int)) then
        ⟨status, [], false⟩
      else
        ⟨dset status "last_saturn_year" (.jint (currentYear : Int)),
          (if fullmoonFired then [.sleepMs 3000] else []) ++
            [.notify "[B]Kronos Eye[/B]" ("Saturn has entered " ++ zodiac)
              "saturn.png"],
          true⟩

/-- Result of the post-load part of `main`. -/
structure RunResult where
  events : List Event
  finalState : StateMap
  moonFired : Bool
  saturnFired : Bool
  updated : Bool
deriving DecidableEq, Repr

/-- Lines 127-171 of `main`: both checks in order, then a single save iff
either block marked the state dirty (`updated`). -/
def runChecks (status : StateMap) (today : Date) : RunResult :=
  let m := moonStep status today
  let s := saturnStep m.state today.year m.fired
  let updated := m.fired || s.fired
  ⟨m.events ++ s.events ++ (if updated then [.saveFile s.state] else []),
    s.state, m.fired, s.fired, updated⟩

/-! ### State store: `load_status` (lines 58-67) -/

/-- The condition of the state file when `load_status` runs: it may be
absent (`os.path.exists` false), unreadable (`open` raises), syntactically
invalid (`json.load` raises), decode to a non-dict JSON value (the
`isinstance(data, dict)` test fails), or decode to a dict. -/
inductive FileCond where
  | absent
  | unreadable
  | invalidJson
  | nonObject (v : JVal)
  | object (m : StateMap)
deriving DecidableEq, Repr

/-- Python `load_status()`: only a readable file decoding to a dict yields its
mapping; every other condition falls through (exception caught and logged,
or guard failed) to `return {}`. The embedding is a total function: no
condition makes it raise. -/
def load_status : FileCond → StateMap
  | .absent => []
  | .unreadable => []
  | .invalidJson => []
  | .nonObject _ => []
  | .object m => m

/-! ### State store: `save_status` (lines 69-85) -/

/-- Which operation inside the `try` of `save_status` fails (`ok`: none). -/
inductive SaveFail where
  | ok
  | openFail
  | writeFail
  | fsyncFail
  | replaceFail
deriving DecidableEq, Repr

/-- The file-system level steps of `save_status`, in statement order. -/
inductive SaveEv where
  | openTmp
  | writeTmp
  | flushTmp
  | fsyncTmp
  | replaceFile
  | logSaveError
  | removeTmp
deriving DecidableEq, Repr

/-- What is observable after `save_status` returns. -/
structure SaveOutcome where
  trace : List SaveEv
  /-- did an exception escape to the caller? -/
  raised : Bool
  /-- content of `DATA_FILE` afterwards (`prev` = untouched). -/
  fileContent : Option StateMap
  /-- does the `.tmp` file still exist afterwards? -/
  tmpLeft : Bool
deriving DecidableEq, Repr

/-- The steps of the `try` block reached before the failure, whether the
tmp file exists at the failure point, and whether the block completed:
`open` creates the tmp; `write`/`flush`/`fsync` leave it; `os.replace`
consumes it. -/
def tryProgress : SaveFail → List SaveEv × Bool × Bool
  | .ok => ([.openTmp, .writeTmp, .flushTmp, .fsyncTmp, .replaceFile], false, true)
  | .openFail => ([], false, false)
  | .writeFail => ([.openTmp], true, false)
  | .fsyncFail => ([.openTmp, .writeTmp, .flushTmp], true, false)
  | .replaceFail => ([.openTmp, .writeTmp, .flushTmp, .fsyncTmp], true, false)

/-- Python `save_status(data)`: on success the rename has atomically replaced the
file content with `data`; on any failure the `except` branch logs, then
best-effort removes the tmp file under `if os.path.exists(tmp)` inside its
own `try/except: pass` (so even a failing removal is swallowed). No path
re-raises: `raised` is `false` by construction of the source's handlers. -/
def save_status (prev : Option StateMap) (data : StateMap)
    (fail : SaveFail) (removeFails : Bool) : SaveOutcome :=
  match tryProgress fail with
  | (evs, _, true) => ⟨evs, false, some data, false⟩
  | (evs, tmpEx, false) =>
      if tmpEx then
        ⟨evs ++ [.logSaveError, .removeTmp], false, prev, removeFails⟩
      else
        ⟨evs ++ [.logSaveError], false, prev, false⟩

/-! ### Boot gate and full `main` (lines 43-48 and 120-173) -/

/-- Outcome of one full `main` invocation. `aborted` is the `SystemExit`
raised by `_boot_wait` when `mon.waitForAbort(60)` reports an abort: it
propagates out of `main` uncaught, so nothing after the boot wait runs. -/
inductive MainResult where
  | aborted
  | completed (events : List Event) (finalState : StateMap)
deriving DecidableEq, Repr

/-- The events a `main` outcome performed (an aborted run performed none:
the state file was neither read nor written, no toast, no sleep). -/
def MainResult.eventsOf : MainResult → List Event
  | .aborted => []
  | .completed es _ => es

/-- Python `main()`: boot-wait (exit cleanly on abort), ensure dirs, load state,
run both checks, save iff dirty. `abortRequested` is the value of
`mon.waitForAbort(60)`; `file` the state-file condition at load time;
`today` the wall-clock date. -/
def kronosMain (abortRequested : Bool) (file : FileCond) (today : Date) :
    MainResult :=
  if abortRequested then .aborted
  else
    let status := load_status file
    let r := runChecks status today
    .completed (.loadFile :: r.events) r.finalState

example :
    (runChecks [] ⟨2025, 1, 1⟩).events =
      [.notify "[B]Kronos Eye[/B]" "Saturn has entered Aries" "saturn.png",
        .saveFile [("last_saturn_year", .jint 2025)]] := by decide

example :
    (runChecks [] ⟨2025, 1, 14⟩).events =
      [.notify "[B]Kronos Eye[/B]" "Step into the light." "fullmoon.png",
        .sleepMs 3000,
        .notify "[B]Kronos Eye[/B]" "Saturn has entered Aries" "saturn.png",
        .saveFile [("last_fullmoon", .jstr "2025-01-14"),
          ("last_saturn_year", .jint 2025)]] := by decide

example :
    (runChecks [("last_saturn_year", .jstr "2025")] ⟨2025, 1, 1⟩).events =
      [.notify "[B]Kronos Eye[/B]" "Saturn has entered Aries" "saturn.png",
        .saveFile [("last_saturn_year", .jint 2025)]] := by decide

example : (runChecks [] ⟨2024, 1, 1⟩).events = [] := by decide

/-! ### Helper lemmas -/

theorem dget_dset_self (m : StateMap) (k : String) (v : JVal) :
    dget (dset m k v) k = some v := by
  induction m with
  | nil => simp [dget, dset]
  | cons p rest ih =>
      obtain ⟨k₀, v₀⟩ := p
      by_cases h : k₀ = k
      · simp [dget, dset, h]
      · simp [dget, dset, h, ih]

theorem dget_dset_ne (m : StateMap) (k q : String) (v : JVal) (h : k ≠ q) :
    dget (dset m k v) q = dget m q := by
  induction m with
  | nil => simp [dget, dset, h]
  | cons p rest ih =>
      obtain ⟨k₀, v₀⟩ := p
      by_cases h₀ : k₀ = k
      · subst h₀; simp [dget, dset, h]
      · simp [dget, dset, h₀, ih]

theorem state_keys_ne : "last_fullmoon" ≠ "last_saturn_year" := by decide

/-- A moon step that does not fire leaves everything unchanged. -/
theorem moonStep_of_skip (st : StateMap) (d : Date)
    (h : dget st "last_fullmoon" = some (.jstr (dateStr d))) :
    moonStep st d = ⟨st, [], false⟩ := by
  simp [moonStep, h]

/-- On a non-full-moon day the moon step never fires. -/
theorem moonStep_of_not_full (st : StateMap) (d : Date)
    (h : is_full_moon d = false) :
    moonStep st d = ⟨st, [], false⟩ := by
  unfold moonStep
  split
  · rfl
  · simp [h]

/-- On a full-moon day without a matching `last_fullmoon` entry the moon
step fires and records today. -/
theorem moonStep_of_fire (st : StateMap) (d : Date)
    (hne : ¬ dget st "last_fullmoon" = some (.jstr (dateStr d)))
    (hf : is_full_moon d = true) :
    moonStep st d =
      ⟨dset st "last_fullmoon" (.jstr (dateStr d)),
        [.notify "[B]Kronos Eye[/B]" "Step into the light." "fullmoon.png"],
        true⟩ := by
  simp [moonStep, hne, hf]

/-- A Saturn step outside the table years never fires. -/
theorem saturnStep_of_no_year (st : StateMap) (y : Nat) (f : Bool)
    (h : SATURN_ZODIAC_CYCLE y = none) :
    saturnStep st y f = ⟨st, [], false⟩ := by
  simp [saturnStep, h]

/-- A Saturn step whose year was already recorded never fires. -/
theorem saturnStep_of_skip (st : StateMap) (y : Nat) (f : Bool)
    (h : dget st "last_saturn_year" = some (.jint (y : Int))) :
    saturnStep st y f = ⟨st, [], false⟩ := by
  unfold saturnStep
  cases hz : SATURN_ZODIAC_CYCLE y with
  | none => rfl
  | some z => simp [h]

/-- A Saturn step in a configured year without a matching recorded year
fires (staggering first iff the moon toast fired). -/
theorem saturnStep_of_fire (st : StateMap) (y : Nat) (f : Bool) (z : String)
    (hz : SATURN_ZODIAC_CYCLE y = some z)
    (h : ¬ dget st "last_saturn_year" = some (.jint (y : Int))) :
    saturnStep st y f =
      ⟨dset st "last_saturn_year" (.jint (y : Int)),
        (if f then [.sleepMs 3000] else []) ++
          [.notify "[B]Kronos Eye[/B]" ("Saturn has entered " ++ z)
            "saturn.png"],
        true⟩ := by
  simp [saturnStep, hz, h]

/-- Unfolding `runChecks` into its two steps. -/
theorem runChecks_eq (st : StateMap) (d : Date) :
    runChecks st d =
      ⟨(moonStep st d).events ++
          (saturnStep (moonStep st d).state d.year (moonStep st d).fired).events ++
          (if (moonStep st d).fired ||
              (saturnStep (moonStep st d).state d.year (moonStep st d).fired).fired
            then [.saveFile (saturnStep (moonStep st d).state d.year
              (moonStep st d).fired).state]
            else []),
        (saturnStep (moonStep st d).state d.year (moonStep st d).fired).state,
        (moonStep st d).fired,
        (saturnStep (moonStep st d).state d.year (moonStep st d).fired).fired,
        (moonStep st d).fired ||
          (saturnStep (moonStep st d).state d.year (moonStep st d).fired).fired⟩ := by
  rfl

/-- The exact scaled-integer modulo equals the real-valued floored modulo
`x - q⌊x/q⌋` of the spec, for the constant `29.53058867`. -/
theorem qmod_eq_emod (n : ℤ) :
    (n : ℚ) - 29.53058867 * ⌊(n : ℚ) / 29.53058867⌋ =
      ((n * 100000000 % 2953058867 : ℤ) : ℚ) / 100000000 := by
  have hc : (29.53058867 : ℚ) = ((2953058867 : ℕ) : ℚ) / ((100000000 : ℕ) : ℚ) := by
    norm_num
  have h1 : (n : ℚ) / 29.53058867 =
      ((n * 100000000 : ℤ) : ℚ) / ((2953058867 : ℕ) : ℚ) := by
    rw [hc, div_div_eq_mul_div]
    push_cast
    ring
  have h2 : ⌊(n : ℚ) / 29.53058867⌋ = n * 100000000 / 2953058867 := by
    rw [h1, Rat.floor_intCast_div_natCast]
    norm_num
  rw [h2, Int.emod_def]
  push_cast
  field_simp
  ring

theorem moon_age_e8_nonneg (d : Date) : 0 ≤ moon_age_e8 d :=
  Int.emod_nonneg _ (by norm_num)

theorem moon_age_e8_lt (d : Date) : moon_age_e8 d < 2953058867 :=
  Int.emod_lt_of_pos _ (by norm_num)

/-- The scaled-integer window test agrees with the rational one. -/
theorem abs_window_iff (m : ℤ) :
    |((m : ℚ)) / 100000000 - 14.77| < 0.5 ↔ |m - 1477000000| < 50000000 := by
  have hs : (0 : ℚ) < 100000000 := by norm_num
  have h : ((m : ℚ)) / 100000000 - 14.77 =
      ((m - 1477000000 : ℤ) : ℚ) / 100000000 := by
    push_cast
    field_simp
    norm_num
  rw [h, abs_div, abs_of_pos hs, div_lt_iff₀ hs,
    show (0.5 : ℚ) * 100000000 = ((50000000 : ℤ) : ℚ) by norm_num,
    ← Int.cast_abs]
  exact Int.cast_lt

/-- The moon step either leaves the state or records today. -/
theorem moonStep_split (st : StateMap) (d : Date) :
    moonStep st d = ⟨st, [], false⟩ ∨
    moonStep st d =
      ⟨dset st "last_fullmoon" (.jstr (dateStr d)),
        [.notify "[B]Kronos Eye[/B]" "Step into the light." "fullmoon.png"],
        true⟩ := by
  unfold moonStep
  split
  · exact Or.inl rfl
  · split
    · exact Or.inr rfl
    · exact Or.inl rfl

/-- The Saturn step either leaves the state or records the year. -/
theorem saturnStep_split (st : StateMap) (y : Nat) (f : Bool) :
    saturnStep st y f = ⟨st, [], false⟩ ∨
    ∃ z, saturnStep st y f =
      ⟨dset st "last_saturn_year" (.jint (y : Int)),
        (if f then [.sleepMs 3000] else []) ++
          [.notify "[B]Kronos Eye[/B]" ("Saturn has entered " ++ z)
            "saturn.png"],
        true⟩ := by
  unfold saturnStep
  cases SATURN_ZODIAC_CYCLE y with
  | none => exact Or.inl rfl
  | some z =>
      dsimp
      split
      · exact Or.inl rfl
      · exact Or.inr ⟨z, rfl⟩

theorem finalState_eq (st : StateMap) (d : Date) :
    (runChecks st d).finalState =
      (saturnStep (moonStep st d).state d.year (moonStep st d).fired).state :=
  rfl

/-- Neither block touches the other's key: the final `last_fullmoon`
entry is whatever the moon step left. -/
theorem dget_fm_final (st : StateMap) (d : Date) :
    dget (runChecks st d).finalState "last_fullmoon" =
      dget (moonStep st d).state "last_fullmoon" := by
  rw [finalState_eq]
  rcases saturnStep_split (moonStep st d).state d.year (moonStep st d).fired
    with h | ⟨z, h⟩
  · rw [h]
  · rw [h]
    exact dget_dset_ne _ _ _ _ state_keys_ne.symm

/-- After a completed run, a further moon step on the same day skips. -/
theorem moonStep_after_run (st : StateMap) (d : Date) :
    moonStep (runChecks st d).finalState d =
      ⟨(runChecks st d).finalState, [], false⟩ := by
  cases hf : is_full_moon d with
  | false => exact moonStep_of_not_full _ d hf
  | true =>
      by_cases hm : dget st "last_fullmoon" = some (.jstr (dateStr d))
      · apply moonStep_of_skip
        rw [dget_fm_final, moonStep_of_skip st d hm]
        exact hm
      · apply moonStep_of_skip
        rw [dget_fm_final, moonStep_of_fire st d hm hf]
        exact dget_dset_self st _ _

/-- After a completed run, a further Saturn step in the same year skips. -/
theorem saturnStep_after_run (st : StateMap) (d : Date) (f : Bool) :
    saturnStep (runChecks st d).finalState d.year f =
      ⟨(runChecks st d).finalState, [], false⟩ := by
  cases hz : SATURN_ZODIAC_CYCLE d.year with
  | none => exact saturnStep_of_no_year _ _ _ hz
  | some z =>
      apply saturnStep_of_skip
      rw [finalState_eq]
      by_cases hs :
          dget (moonStep st d).state "last_saturn_year" =
            some (.jint (d.year : Int))
      · rw [saturnStep_of_skip _ _ _ hs]
        exact hs
      · rw [saturnStep_of_fire _ _ _ z hz hs]
        exact dget_dset_self _ _ _

/-! ### Claim theorems -/

/-- C1 (code evaluated at the failing input): in the run with empty state
on 2025-01-14 — a model full-moon date in a Saturn-table year — both
toasts fire, but the stagger between them is `xbmc.sleep(3000)`, i.e.
3.0 seconds, not the 2.5 seconds stated by the claim (and by the source's
own changelog and log message). -/
theorem C1_stagger_is_3000ms :
    (runChecks [] ⟨2025, 1, 14⟩).moonFired = true ∧
    notificationsOf (runChecks [] ⟨2025, 1, 14⟩).events =
      [.notify "[B]Kronos Eye[/B]" "Step into the light." "fullmoon.png",
        .notify "[B]Kronos Eye[/B]" "Saturn has entered Aries" "saturn.png"] ∧
    sleepsOf (runChecks [] ⟨2025, 1, 14⟩).events = [.sleepMs 3000] := by
  decide

/-- C2: for every calendar date, `is_full_moon` returns true iff the
real-valued floored modulo of the whole-day difference from 2000-01-06 by
29.53058867 is within 0.5 of 14.77, and that modulo lies in
`[0, 29.53058867)` also for dates before the epoch. -/
theorem C2_is_full_moon_spec (d : Date) :
    (is_full_moon d = true ↔
      |((days_passed d : ℚ) -
          29.53058867 * ⌊(days_passed d : ℚ) / 29.53058867⌋) - 14.77| < 0.5) ∧
    0 ≤ (days_passed d : ℚ) -
        29.53058867 * ⌊(days_passed d : ℚ) / 29.53058867⌋ ∧
    (days_passed d : ℚ) -
        29.53058867 * ⌊(days_passed d : ℚ) / 29.53058867⌋ < 29.53058867 := by
  have hq := qmod_eq_emod (days_passed d)
  have hm : (days_passed d * 100000000 % 2953058867 : ℤ) = moon_age_e8 d := rfl
  rw [hm] at hq
  refine ⟨?_, ?_, ?_⟩
  · rw [hq, abs_window_iff]
    simp [is_full_moon]
  · rw [hq]
    exact div_nonneg (by exact_mod_cast moon_age_e8_nonneg d) (by norm_num)
  · rw [hq, div_lt_iff₀ (by norm_num : (0 : ℚ) < 100000000)]
    have h := moon_age_e8_lt d
    rw [show (29.53058867 : ℚ) * 100000000 = ((2953058867 : ℤ) : ℚ) by norm_num]
    exact_mod_cast h

/-- C3: a second run on the same day, starting from the state the first
run left, performs nothing at all: in particular no second full-moon
toast that day and no second Saturn toast that year. -/
theorem C3_second_run_is_silent (st : StateMap) (d : Date) :
    notificationsOf (runChecks (runChecks st d).finalState d).events = [] ∧
    (runChecks (runChecks st d).finalState d).events = [] := by
  have h2 : (runChecks (runChecks st d).finalState d).events = [] := by
    rw [runChecks_eq ((runChecks st d).finalState) d, moonStep_after_run]
    dsimp
    rw [saturnStep_after_run]
    simp
  exact ⟨by rw [h2]; rfl, h2⟩

/-- C4: `load_status` is total — every file condition other than a
readable dict-valued JSON file (absent, unreadable, invalid JSON, JSON
non-object) yields the empty mapping, and a dict-valued file yields
exactly its mapping; no condition raises. -/
theorem C4_load_status_never_raises :
    load_status .absent = [] ∧
    load_status .unreadable = [] ∧
    load_status .invalidJson = [] ∧
    (∀ v : JVal, load_status (.nonObject v) = []) ∧
    (∀ m : StateMap, load_status (.object m) = m) :=
  ⟨rfl, rfl, rfl, fun _ => rfl, fun _ => rfl⟩

/-- C5: `save_status` follows tmp-write → fsync → atomic rename on
success; on any failure the outcome is logged, the real file keeps its
previous content, the tmp file is removed whenever the removal itself
succeeds, and no exception ever escapes to the caller. -/
theorem C5_save_status_never_raises (prev : Option StateMap)
    (data : StateMap) (fail : SaveFail) (removeFails : Bool) :
    (save_status prev data fail removeFails).raised = false ∧
    (fail = .ok →
      save_status prev data fail removeFails =
        ⟨[.openTmp, .writeTmp, .flushTmp, .fsyncTmp, .replaceFile], false,
          some data, false⟩) ∧
    (fail ≠ .ok →
      (save_status prev data fail removeFails).fileContent = prev ∧
      SaveEv.logSaveError ∈ (save_status prev data fail removeFails).trace ∧
      (removeFails = false →
        (save_status prev data fail removeFails).tmpLeft = false)) := by
  cases fail <;> cases removeFails <;> simp [save_status, tryProgress]

/-- Witness for C5: the rename-failure case at concrete inputs. -/
theorem C5_save_status_never_raises_witness :
    (save_status (some []) [] .replaceFail false).raised = false ∧
    (save_status (some []) [] .replaceFail false).fileContent = some [] ∧
    (save_status (some []) [] .replaceFail false).tmpLeft = false := by
  have h := C5_save_status_never_raises (some []) [] .replaceFail false
  exact ⟨h.1, (h.2.2 (by decide)).1, (h.2.2 (by decide)).2.2 rfl⟩

/-- C6: if the host signals abort during the boot wait, the run ends as
`aborted` with an empty effect trace: the state file is never read or
written, and no notify, sleep, or save happens. -/
theorem C6_abort_is_clean (file : FileCond) (today : Date) :
    kronosMain true file today = .aborted ∧
    (kronosMain true file today).eventsOf = [] :=
  ⟨rfl, rfl⟩

/-- C7: in 2025, starting from a state with no `last_saturn_year` entry on
a day that is not a full moon, exactly the single Saturn toast
"Saturn has entered Aries" fires and no stagger sleep happens. -/
theorem C7_saturn_only_run (st : StateMap) (d : Date)
    (hy : d.year = 2025)
    (hns : dget st "last_saturn_year" = none)
    (hnf : is_full_moon d = false) :
    notificationsOf (runChecks st d).events =
      [.notify "[B]Kronos Eye[/B]" "Saturn has entered Aries" "saturn.png"] ∧
    sleepsOf (runChecks st d).events = [] := by
  have hm := moonStep_of_not_full st d hnf
  have hz : SATURN_ZODIAC_CYCLE d.year = some "Aries" := by
    rw [hy]
    decide
  have hs := saturnStep_of_fire st d.year false "Aries" hz
    (by rw [hns]; simp)
  rw [runChecks_eq, hm]
  dsimp
  rw [hs]
  constructor
  · simp [notificationsOf, Event.isNotify]
  · simp [sleepsOf, Event.isSleep]

/-- Witness for C7 at the concrete scenario (empty state, 2025-01-01). -/
theorem C7_saturn_only_run_witness :
    notificationsOf (runChecks [] ⟨2025, 1, 1⟩).events =
      [.notify "[B]Kronos Eye[/B]" "Saturn has entered Aries" "saturn.png"] ∧
    sleepsOf (runChecks [] ⟨2025, 1, 1⟩).events = [] :=
  C7_saturn_only_run [] ⟨2025, 1, 1⟩ rfl rfl (by decide)

/-- C8: a run that fires no notification performs no save and leaves the
mapping (unknown keys included) exactly as loaded; a run that fires at
least one notification performs exactly one save, of the full final
mapping. -/
theorem C8_save_iff_notified (st : StateMap) (d : Date) :
    (notificationsOf (runChecks st d).events = [] →
      (runChecks st d).finalState = st ∧
      savesOf (runChecks st d).events = []) ∧
    (notificationsOf (runChecks st d).events ≠ [] →
      savesOf (runChecks st d).events =
        [.saveFile (runChecks st d).finalState]) := by
  rw [runChecks_eq]
  rcases moonStep_split st d with hm | hm <;> rw [hm] <;> dsimp <;>
    [rcases saturnStep_split st d.year false with hs | ⟨z, hs⟩;
      rcases saturnStep_split (dset st "last_fullmoon" (.jstr (dateStr d)))
        d.year true with hs | ⟨z, hs⟩] <;>
    rw [hs] <;> dsimp <;>
    simp [notificationsOf, savesOf, Event.isNotify, Event.isSave]

/-- Witness for C8: a run with nothing to do (2024 is not a Saturn year,
2024-01-01 is not a model full moon) saves nothing and keeps the state. -/
theorem C8_save_iff_notified_witness :
    (runChecks [] ⟨2024, 1, 1⟩).finalState = [] ∧
    savesOf (runChecks [] ⟨2024, 1, 1⟩).events = [] :=
  (C8_save_iff_notified [] ⟨2024, 1, 1⟩).1 (by decide)

/-- C9 (counterexample to the claim as stated): the calendar date holding
the instant 14 days and 18 hours after the 2000-01-06 epoch is
2000-01-20, and `is_full_moon` returns `false` there — the whole-day
difference truncates to 14, so the computed age is 14.00, not ≈14.77. -/
theorem C9_counterexample : is_full_moon ⟨2000, 1, 20⟩ = false := by
  decide

/-- C9 (amended): `is_full_moon` on 2000-01-20 (the date of the instant
epoch + 14d18h) computes age 14.00 days and returns `false`; one day
later, on 2000-01-21, it computes age 15.00 days — within 0.5 of 14.77 —
and returns `true`. -/
theorem C9_boundary_dates :
    moon_age_e8 ⟨2000, 1, 20⟩ = 1400000000 ∧
    is_full_moon ⟨2000, 1, 20⟩ = false ∧
    moon_age_e8 ⟨2000, 1, 21⟩ = 1500000000 ∧
    is_full_moon ⟨2000, 1, 21⟩ = true := by
  decide

/-- C10: a `last_saturn_year` stored as the JSON string "2025" does not
match the integer 2025, so the Saturn toast fires again in 2025 (on a
non-full-moon day it is the only notification) and the entry is rewritten
as the integer 2025. -/
theorem C10_string_year_not_suppressing :
    notificationsOf
        (runChecks [("last_saturn_year", JVal.jstr "2025")]
          ⟨2025, 1, 1⟩).events =
      [.notify "[B]Kronos Eye[/B]" "Saturn has entered Aries" "saturn.png"] ∧
    dget (runChecks [("last_saturn_year", JVal.jstr "2025")]
        ⟨2025, 1, 1⟩).finalState "last_saturn_year" =
      some (.jint 2025) := by
  decide

end KronosEye
